import Mathlib

/-!
Shallow embedding of `src/app/backend/src/addon/privatemode_addon.cc`,
the N-API bridge that loads `libprivatemode`, resolves its entry points
and marshals their results into host values.

Modelling decisions, all read off the POSIX (`dlopen`/`dlsym`) branch of
the source:

* A native-allocated message buffer (`char *`) is a `Buffer`: an
  identifier (its address) paired with the contents of the
  null-terminated string stored there.
* Calls into the host runtime that touch native memory are recorded in a
  trace of `Event`s: `readBuf p` when `Napi::String::New(env, ptr)`
  copies the buffer at `p` into a host string, `freeBuf p` when
  `free(ptr)` releases it.
* The environment is `Option String` for `LIBPRIVATEMODE_PATH`:
  `std::getenv` yields `none` exactly when the variable is absent; an
  empty value is `some ""`.
* `dlopen` is a map from paths to optionally-present libraries; a
  library is its symbol table, a map from exported names to
  optionally-present function pointers. `dlerror` is a fixed diagnostic
  string parameter.
* `snprintf(buffer.data(), buffer.size(), ...)` into the 512-byte
  `MsgBuffer` writes at most 511 characters plus the terminator; it is
  modelled as truncation of the formatted message to 511 characters.
* `Napi::Error::...::ThrowAsJavaScriptException()` followed by a dummy
  return is the `thrown` constructor of the outcome types.
-/

/-- Contents of a native-allocated, null-terminated buffer, together
with the address it lives at. -/
structure Buffer where
  ptr : Nat
  contents : String
deriving Repr, DecidableEq

/-- Interactions of the addon with native-owned memory. -/
inductive Event where
  | readBuf (p : Nat)
  | freeBuf (p : Nat)
deriving Repr, DecidableEq

/-- Whether an event frees the buffer at `p`. -/
def Event.isFreeOf (p : Nat) : Event → Bool
  | .freeBuf q => p = q
  | _ => false

/-- Whether an event reads (copies) the buffer at `p`. -/
def Event.isReadOf (p : Nat) : Event → Bool
  | .readBuf q => p = q
  | _ => false

/-- Number of times the buffer at `p` is freed in a trace. -/
def freeCount (p : Nat) (tr : List Event) : Nat :=
  (tr.filter (Event.isFreeOf p)).length

/-- The buffer at `p` is read before any release of it: walking the
trace, a read of `p` occurs strictly before the first free of `p` (true
when `p` is never freed). -/
def readBeforeFree (p : Nat) : List Event → Bool
  | [] => true
  | e :: rest =>
    if e.isFreeOf p then false
    else if e.isReadOf p then true
    else readBeforeFree p rest

/-- The raw ABI result of `PrivatemodeStartProxy`: `r0` is the port, or
the sentinel `-1`; `r1` is the message buffer, only meaningful in the
failure case. -/
structure PrivatemodeStartProxyReturn where
  r0 : Int
  r1 : Buffer
deriving Repr, DecidableEq

/-- A loaded native library: its symbol table, mapping an exported name
to the function pointer `dlsym` yields, or `none` when absent. -/
structure NativeLib where
  symbols : String → Option Nat

/-- The resolved function pointers held by a successfully constructed
`LibraryLoader`. -/
structure LibraryLoader where
  startProxyFunc : Nat
  currentManifestFunc : Nat
deriving Repr, DecidableEq

/-- `snprintf` into the 512-byte `MsgBuffer`: keeps at most the first
511 characters of the formatted message. -/
def snprintfMsgBuffer (s : String) : String :=
  ⟨s.data.take 511⟩

/-- `LibraryLoader::getLibraryPath`: reads `LIBPRIVATEMODE_PATH`, throws
when `std::getenv` returned a null pointer, and otherwise returns the
value — the empty string included. -/
def getLibraryPath (env : Option String) : Except String String :=
  match env with
  | none => .error "LIBPRIVATEMODE_PATH environment variable not set"
  | some p => .ok p

/-- The `LibraryLoader` constructor, POSIX branch: resolve the path,
`dlopen` it, then `dlsym` both `PrivatemodeStartProxy` and
`CurrentManifest`, throwing a `MsgBuffer`-formatted diagnostic at the
first step that fails. -/
def mkLibraryLoader (env : Option String) (libs : String → Option NativeLib)
    (dlerr : String) : Except String LibraryLoader :=
  match getLibraryPath env with
  | .error e => .error e
  | .ok libPath =>
    match libs libPath with
    | none =>
        .error (snprintfMsgBuffer
          ("Failed to load library: " ++ libPath ++ " (" ++ dlerr ++ ")"))
    | some lib =>
      match lib.symbols "PrivatemodeStartProxy" with
      | none =>
          .error (snprintfMsgBuffer
            ("Failed to find PrivatemodeStartProxy function (" ++ dlerr ++ ")"))
      | some sp =>
        match lib.symbols "CurrentManifest" with
        | none =>
            .error (snprintfMsgBuffer
              ("Failed to find CurrentManifest function (" ++ dlerr ++ ")"))
        | some cm => .ok { startProxyFunc := sp, currentManifestFunc := cm }

/-- The host-visible object built by `StartProxy`: `success`, `port`,
and the optional `error` property (absent in the success branch). -/
structure HostResult where
  success : Bool
  port : String
  error : Option String
deriving Repr, DecidableEq

/-- Outcome of a `StartProxy` call: either a pending JavaScript
exception (the function returns a fresh empty object), or a returned
result object together with the trace of native-memory events. -/
inductive StartProxyOutcome where
  | thrown (msg : String)
  | returned (r : HostResult) (tr : List Event)
deriving Repr, DecidableEq

/-- `StartProxy`: throws when the loader singleton is null; otherwise
calls the bound `PrivatemodeStartProxy` pointer and marshals its result.
On the `-1` sentinel it copies the message buffer into the `error`
property, sets `port` to `"-1"`, and frees the buffer; otherwise it
stringifies the port with `std::to_string` and never touches `r1`. -/
def StartProxy (loader : Option LibraryLoader)
    (call : Nat → PrivatemodeStartProxyReturn) : StartProxyOutcome :=
  match loader with
  | none => .thrown "Library not loaded"
  | some l =>
    let result := call l.startProxyFunc
    if result.r0 = -1 then
      .returned
        { success := false, error := some result.r1.contents, port := "-1" }
        [Event.readBuf result.r1.ptr, Event.freeBuf result.r1.ptr]
    else
      .returned
        { success := true, port := toString result.r0, error := none }
        []

/-- Outcome of a `GetCurrentManifest` call: a pending JavaScript
exception (with `""` returned), or the returned host string with the
trace of native-memory events. -/
inductive ManifestOutcome where
  | thrown (msg : String)
  | returned (s : String) (tr : List Event)
deriving Repr, DecidableEq

/-- `GetCurrentManifest`: throws when the loader singleton is null;
otherwise calls the bound `CurrentManifest` pointer, copies the returned
buffer into a host string, frees the buffer and returns the copy. -/
def GetCurrentManifest (loader : Option LibraryLoader)
    (call : Nat → Buffer) : ManifestOutcome :=
  match loader with
  | none => .thrown "Library not loaded"
  | some l =>
    let result := call l.currentManifestFunc
    .returned result.contents
      [Event.readBuf result.ptr, Event.freeBuf result.ptr]

/-- Which facade functions `Init` set on the `exports` object. -/
structure Exports where
  startProxySet : Bool
  getCurrentManifestSet : Bool
deriving Repr, DecidableEq

/-- State after module load: the loader singleton (null when
construction threw), the populated `exports`, and the pending
initialization exception, if any. -/
structure InitState where
  loader : Option LibraryLoader
  exports : Exports
  thrownMsg : Option String
deriving Repr, DecidableEq

/-- `Init`: constructs the `LibraryLoader` singleton; on failure it
throws `"Failed to initialize library: "` plus the diagnostic and
returns `exports` untouched, on success it sets both `startProxy` and
`getCurrentManifest` on `exports`. -/
def Init (env : Option String) (libs : String → Option NativeLib)
    (dlerr : String) : InitState :=
  match mkLibraryLoader env libs dlerr with
  | .error e =>
      { loader := none
        exports := { startProxySet := false, getCurrentManifestSet := false }
        thrownMsg := some ("Failed to initialize library: " ++ e) }
  | .ok l =>
      { loader := some l
        exports := { startProxySet := true, getCurrentManifestSet := true }
        thrownMsg := none }

/-- `sub` occurs as a contiguous substring of `s`. -/
def occursIn (sub s : String) : Prop :=
  ∃ a b : List Char, s.data = a ++ sub.data ++ b

/-! ## Helper lemmas -/

/-- A `MsgBuffer`-formatted diagnostic is at most 511 characters long. -/
theorem snprintfMsgBuffer_length_le (s : String) :
    (snprintfMsgBuffer s).length ≤ 511 := by
  show (s.data.take 511).length ≤ 511
  exact List.length_take_le 511 s.data

/-- Formatting through the `MsgBuffer` is the identity on messages that
already fit in 511 characters. -/
theorem snprintfMsgBuffer_eq_of_le (s : String) (h : s.length ≤ 511) :
    snprintfMsgBuffer s = s := by
  show String.mk (s.data.take 511) = s
  rw [List.take_of_length_le h]

/-- A middle piece whose end lies within the first 511 characters
survives the `MsgBuffer` truncation. -/
theorem occursIn_snprintfMsgBuffer (sub s : String) (a post : List Char)
    (hs : s.data = a ++ sub.data ++ post)
    (h : a.length + sub.data.length ≤ 511) :
    occursIn sub (snprintfMsgBuffer s) := by
  refine ⟨a, post.take (511 - a.length - sub.data.length), ?_⟩
  have h' : (a ++ sub.data).length ≤ 511 := by
    simpa [List.length_append] using h
  show (s.data.take 511) = _
  rw [hs, List.take_append_eq_append_take, List.take_of_length_le h',
    List.length_append]
  congr 2
  omega

/-! ## Claim theorems -/

/-- C1: whenever `StartProxy` receives a failure result carrying a
native message buffer, and whenever `GetCurrentManifest` receives a
native manifest buffer, the buffer is copied into a host string before
it is released, it is released exactly once on the branch taken, and
only the copy of its contents — a host string, not the pointer — is
returned to the caller. -/
theorem startProxy_getCurrentManifest_release_once
    (l : LibraryLoader) (call : Nat → PrivatemodeStartProxyReturn)
    (mcall : Nat → Buffer)
    (hfail : (call l.startProxyFunc).r0 = -1) :
    (∃ r tr, StartProxy (some l) call = .returned r tr ∧
      readBeforeFree (call l.startProxyFunc).r1.ptr tr = true ∧
      freeCount (call l.startProxyFunc).r1.ptr tr = 1 ∧
      r.error = some (call l.startProxyFunc).r1.contents) ∧
    (∃ s tr, GetCurrentManifest (some l) mcall = .returned s tr ∧
      readBeforeFree (mcall l.currentManifestFunc).ptr tr = true ∧
      freeCount (mcall l.currentManifestFunc).ptr tr = 1 ∧
      s = (mcall l.currentManifestFunc).contents) := by
  constructor
  · refine ⟨HostResult.mk false "-1" (some (call l.startProxyFunc).r1.contents),
      [Event.readBuf (call l.startProxyFunc).r1.ptr,
        Event.freeBuf (call l.startProxyFunc).r1.ptr], ?_, ?_, ?_, rfl⟩
    · simp [StartProxy, hfail]
    · simp [readBeforeFree, Event.isFreeOf, Event.isReadOf]
    · simp [freeCount, Event.isFreeOf]
  · refine ⟨(mcall l.currentManifestFunc).contents,
      [Event.readBuf (mcall l.currentManifestFunc).ptr,
        Event.freeBuf (mcall l.currentManifestFunc).ptr], rfl, ?_, ?_⟩
    · simp [readBeforeFree, Event.isFreeOf, Event.isReadOf]
    · simp [freeCount, Event.isFreeOf]

/-- Witness for the release-once theorem at a concrete failure result
and manifest buffer. -/
theorem startProxy_getCurrentManifest_release_once_witness :
    (((fun _ : Nat =>
        ({ r0 := -1, r1 := { ptr := 7, contents := "boom" } } :
          PrivatemodeStartProxyReturn))
        (({ startProxyFunc := 1, currentManifestFunc := 2 } :
          LibraryLoader)).startProxyFunc).r0 = -1) ∧
    ((∃ r tr, StartProxy (some { startProxyFunc := 1, currentManifestFunc := 2 })
        (fun _ => { r0 := -1, r1 := { ptr := 7, contents := "boom" } }) =
          .returned r tr ∧
      readBeforeFree 7 tr = true ∧ freeCount 7 tr = 1 ∧
      r.error = some "boom") ∧
    (∃ s tr, GetCurrentManifest (some { startProxyFunc := 1, currentManifestFunc := 2 })
        (fun _ => { ptr := 9, contents := "v1.2.3" }) = .returned s tr ∧
      readBeforeFree 9 tr = true ∧ freeCount 9 tr = 1 ∧
      s = "v1.2.3")) :=
  ⟨rfl, startProxy_getCurrentManifest_release_once
    { startProxyFunc := 1, currentManifestFunc := 2 }
    (fun _ => { r0 := -1, r1 := { ptr := 7, contents := "boom" } })
    (fun _ => { ptr := 9, contents := "v1.2.3" }) rfl⟩

/-- C2: when the native call yields the `-1` sentinel with message
`"boom"`, `StartProxy` returns the structured value
`{success := false, port := "-1", error := some "boom"}` — it does not
throw — and the buffer backing the message is freed at most once in the
trace. -/
theorem startProxy_boom_failure_structured
    (l : LibraryLoader) (call : Nat → PrivatemodeStartProxyReturn) (p : Nat)
    (h : call l.startProxyFunc =
      { r0 := -1, r1 := { ptr := p, contents := "boom" } }) :
    ∃ tr, StartProxy (some l) call =
      .returned (HostResult.mk false "-1" (some "boom")) tr ∧
      freeCount p tr ≤ 1 := by
  refine ⟨[Event.readBuf p, Event.freeBuf p], ?_, ?_⟩
  · simp [StartProxy, h]
  · simp [freeCount, Event.isFreeOf]

/-- Witness for the boom-failure theorem at a concrete loader and
native call. -/
theorem startProxy_boom_failure_structured_witness :
    ((fun _ : Nat =>
        ({ r0 := -1, r1 := { ptr := 3, contents := "boom" } } :
          PrivatemodeStartProxyReturn))
      (({ startProxyFunc := 1, currentManifestFunc := 2 } :
        LibraryLoader)).startProxyFunc =
      { r0 := -1, r1 := { ptr := 3, contents := "boom" } }) ∧
    (∃ tr, StartProxy (some { startProxyFunc := 1, currentManifestFunc := 2 })
        (fun _ => { r0 := -1, r1 := { ptr := 3, contents := "boom" } }) =
        .returned (HostResult.mk false "-1" (some "boom")) tr ∧
      freeCount 3 tr ≤ 1) :=
  ⟨rfl, startProxy_boom_failure_structured
    { startProxyFunc := 1, currentManifestFunc := 2 }
    (fun _ => { r0 := -1, r1 := { ptr := 3, contents := "boom" } }) 3 rfl⟩

/-- C3: when the native call yields a positive port, `StartProxy`
returns `{success := true, port := decimal string of the port}` with no
`error` property. -/
theorem startProxy_positive_port_success
    (l : LibraryLoader) (call : Nat → PrivatemodeStartProxyReturn)
    (h : 0 < (call l.startProxyFunc).r0) :
    StartProxy (some l) call =
      .returned
        (HostResult.mk true (toString (call l.startProxyFunc).r0) none)
        [] := by
  have hne : ¬ (call l.startProxyFunc).r0 = -1 := by omega
  simp [StartProxy, hne]

/-- Witness for the positive-port theorem: the native call returns port
8080 and `StartProxy` reports `port = "8080"`. -/
theorem startProxy_positive_port_success_witness :
    (0 < ((fun _ : Nat =>
        ({ r0 := 8080, r1 := { ptr := 0, contents := "" } } :
          PrivatemodeStartProxyReturn))
      (({ startProxyFunc := 1, currentManifestFunc := 2 } :
        LibraryLoader)).startProxyFunc).r0) ∧
    StartProxy (some { startProxyFunc := 1, currentManifestFunc := 2 })
        (fun _ => { r0 := 8080, r1 := { ptr := 0, contents := "" } }) =
      .returned (HostResult.mk true "8080" none) [] :=
  ⟨by decide, startProxy_positive_port_success
    { startProxyFunc := 1, currentManifestFunc := 2 }
    (fun _ => { r0 := 8080, r1 := { ptr := 0, contents := "" } })
    (by decide)⟩

/-- C7: with a null loader singleton — the state left by any failed or
absent initialization — both facade operations deterministically throw
`"Library not loaded"`, whatever the native world looks like; neither
takes the environment or the library map as input, so no call path can
re-run initialization. -/
theorem facade_throws_when_not_loaded
    (call : Nat → PrivatemodeStartProxyReturn) (mcall : Nat → Buffer) :
    StartProxy none call = .thrown "Library not loaded" ∧
    GetCurrentManifest none mcall = .thrown "Library not loaded" :=
  ⟨rfl, rfl⟩

/-- Witness for the not-loaded theorem at concrete native calls. -/
theorem facade_throws_when_not_loaded_witness :
    StartProxy none (fun _ => { r0 := 1, r1 := { ptr := 0, contents := "" } }) =
      .thrown "Library not loaded" ∧
    GetCurrentManifest none (fun _ => { ptr := 0, contents := "" }) =
      .thrown "Library not loaded" :=
  facade_throws_when_not_loaded _ _

/-- C8: when the bound `CurrentManifest` returns a buffer holding
`"v1.2.3"`, `GetCurrentManifest` returns exactly the string `"v1.2.3"`,
having read the buffer and then freed it. -/
theorem getCurrentManifest_roundtrip
    (l : LibraryLoader) (mcall : Nat → Buffer) (p : Nat)
    (h : mcall l.currentManifestFunc = { ptr := p, contents := "v1.2.3" }) :
    GetCurrentManifest (some l) mcall =
      .returned "v1.2.3" [Event.readBuf p, Event.freeBuf p] := by
  simp [GetCurrentManifest, h]

/-- Witness for the manifest round-trip at a concrete loader and
buffer. -/
theorem getCurrentManifest_roundtrip_witness :
    ((fun _ : Nat => ({ ptr := 5, contents := "v1.2.3" } : Buffer))
      (({ startProxyFunc := 1, currentManifestFunc := 2 } :
        LibraryLoader)).currentManifestFunc =
      { ptr := 5, contents := "v1.2.3" }) ∧
    GetCurrentManifest (some { startProxyFunc := 1, currentManifestFunc := 2 })
        (fun _ => { ptr := 5, contents := "v1.2.3" }) =
      .returned "v1.2.3" [Event.readBuf 5, Event.freeBuf 5] :=
  ⟨rfl, getCurrentManifest_roundtrip
    { startProxyFunc := 1, currentManifestFunc := 2 }
    (fun _ => { ptr := 5, contents := "v1.2.3" }) 5 rfl⟩

/-- C9: `StartProxy` treats every result whose `r0` differs from the
exact sentinel `-1` — zero and other negative values included — as
success, returning `success := true` with the decimal rendering of
`r0` as the port. -/
theorem startProxy_non_sentinel_is_success
    (l : LibraryLoader) (call : Nat → PrivatemodeStartProxyReturn)
    (h : (call l.startProxyFunc).r0 ≠ -1) :
    StartProxy (some l) call =
      .returned
        (HostResult.mk true (toString (call l.startProxyFunc).r0) none)
        [] := by
  simp [StartProxy, h]

/-- Witness for the non-sentinel theorem at the negative port `-5`:
classified as success with `port = "-5"`. -/
theorem startProxy_non_sentinel_is_success_witness :
    (((fun _ : Nat =>
        ({ r0 := -5, r1 := { ptr := 0, contents := "" } } :
          PrivatemodeStartProxyReturn))
      (({ startProxyFunc := 1, currentManifestFunc := 2 } :
        LibraryLoader)).startProxyFunc).r0 ≠ -1) ∧
    StartProxy (some { startProxyFunc := 1, currentManifestFunc := 2 })
        (fun _ => { r0 := -5, r1 := { ptr := 0, contents := "" } }) =
      .returned (HostResult.mk true "-5" none) [] :=
  ⟨by decide, startProxy_non_sentinel_is_success
    { startProxyFunc := 1, currentManifestFunc := 2 }
    (fun _ => { r0 := -5, r1 := { ptr := 0, contents := "" } })
    (by decide)⟩

/-- C4 counterexample: with the library-path variable set to the empty
string, `getLibraryPath` succeeds — the code only checks for a null
`getenv` result — and initialization can even reach the ready state
when the loader world resolves the empty path, so the claimed
`"variable not set"` configuration failure does not occur. -/
theorem emptyEnv_no_configuration_error :
    getLibraryPath (some "") = Except.ok "" ∧
    (Init (some "")
      (fun _ => some ⟨fun s => if s = "PrivatemodeStartProxy" then some 1
        else if s = "CurrentManifest" then some 2 else none⟩)
      "err").loader = some { startProxyFunc := 1, currentManifestFunc := 2 } := by
  constructor
  · rfl
  · rfl

/-- C4 amended: only an absent (unset) library-path variable makes
initialization fail with the `"variable not set"` configuration error —
in which case the bridge never becomes ready and no facade is exported —
while an empty-string value passes path resolution and proceeds to the
library-load step. -/
theorem absentEnv_configuration_error
    (libs : String → Option NativeLib) (dlerr : String) :
    (Init none libs dlerr).loader = none ∧
    (Init none libs dlerr).exports =
      { startProxySet := false, getCurrentManifestSet := false } ∧
    (Init none libs dlerr).thrownMsg =
      some ("Failed to initialize library: " ++
        "LIBPRIVATEMODE_PATH environment variable not set") ∧
    getLibraryPath (some "") = Except.ok "" :=
  ⟨rfl, rfl, rfl, rfl⟩

/-- Witness for the absent-variable theorem at a concrete loader world. -/
theorem absentEnv_configuration_error_witness :
    (Init none (fun _ => none) "e").loader = none ∧
    (Init none (fun _ => none) "e").exports =
      { startProxySet := false, getCurrentManifestSet := false } ∧
    (Init none (fun _ => none) "e").thrownMsg =
      some ("Failed to initialize library: " ++
        "LIBPRIVATEMODE_PATH environment variable not set") ∧
    getLibraryPath (some "") = Except.ok "" :=
  absentEnv_configuration_error (fun _ => none) "e"

/-- C6 counterexample: a library exposing `PrivatemodeStartProxy` but
not `CurrentManifest` does not initialize successfully — the
constructor throws, the loader stays null and no facade operation is
exported. -/
theorem missing_manifest_symbol_fails_init :
    (Init (some "lib.so")
      (fun p => if p = "lib.so" then
        some ⟨fun s => if s = "PrivatemodeStartProxy" then some 1 else none⟩
        else none)
      "undefined symbol").loader = none ∧
    (Init (some "lib.so")
      (fun p => if p = "lib.so" then
        some ⟨fun s => if s = "PrivatemodeStartProxy" then some 1 else none⟩
        else none)
      "undefined symbol").exports =
      { startProxySet := false, getCurrentManifestSet := false } :=
  ⟨rfl, rfl⟩

/-- C6 amended: the manifest entry point is required, not optional — if
the loaded library lacks `CurrentManifest`, initialization fails and
nothing is exported; and whenever initialization succeeds, the
`getCurrentManifest` facade is unconditionally exposed. -/
theorem manifest_symbol_required
    (path : String) (lib : NativeLib) (libs : String → Option NativeLib)
    (dlerr : String) (hlib : libs path = some lib)
    (hman : lib.symbols "CurrentManifest" = none) :
    (Init (some path) libs dlerr).loader = none ∧
    (Init (some path) libs dlerr).exports =
      { startProxySet := false, getCurrentManifestSet := false } ∧
    (∀ env l, (Init env libs dlerr).loader = some l →
      (Init env libs dlerr).exports =
        { startProxySet := true, getCurrentManifestSet := true }) := by
  refine ⟨?_, ?_, ?_⟩
  · cases hsp : lib.symbols "PrivatemodeStartProxy" <;>
      simp [Init, mkLibraryLoader, getLibraryPath, hlib, hman, hsp]
  · cases hsp : lib.symbols "PrivatemodeStartProxy" <;>
      simp [Init, mkLibraryLoader, getLibraryPath, hlib, hman, hsp]
  · intro env l h
    unfold Init at h ⊢
    cases hmk : mkLibraryLoader env libs dlerr <;> simp [hmk] at h ⊢

/-- Witness for the required-manifest theorem at a concrete library
lacking `CurrentManifest`. -/
theorem manifest_symbol_required_witness :
    ((fun p => if p = "lib.so" then
        some (NativeLib.mk (fun s =>
          if s = "PrivatemodeStartProxy" then some 1 else none))
        else none) "lib.so" =
      some (NativeLib.mk (fun s =>
        if s = "PrivatemodeStartProxy" then some 1 else none))) ∧
    ((NativeLib.mk (fun s =>
        if s = "PrivatemodeStartProxy" then some 1 else none)).symbols
      "CurrentManifest" = none) ∧
    (Init (some "lib.so")
      (fun p => if p = "lib.so" then
        some (NativeLib.mk (fun s =>
          if s = "PrivatemodeStartProxy" then some 1 else none))
        else none) "undefined symbol").loader = none := by
  refine ⟨rfl, rfl, ?_⟩
  exact (manifest_symbol_required "lib.so"
    (NativeLib.mk (fun s =>
      if s = "PrivatemodeStartProxy" then some 1 else none))
    (fun p => if p = "lib.so" then
      some (NativeLib.mk (fun s =>
        if s = "PrivatemodeStartProxy" then some 1 else none))
      else none) "undefined symbol" rfl rfl).1

/-- C10: every diagnostic produced after path resolution — library-load
failure or either missing-symbol failure — goes through the 512-byte
`MsgBuffer`, so the error string attached to the thrown
initialization error is at most 511 characters long. -/
theorem init_diagnostics_truncated_to_511
    (env : Option String) (path : String) (libs : String → Option NativeLib)
    (dlerr e : String) (henv : env = some path)
    (herr : mkLibraryLoader env libs dlerr = Except.error e) :
    e.length ≤ 511 := by
  subst henv
  unfold mkLibraryLoader getLibraryPath at herr
  repeat' split at herr
  all_goals try (cases herr <;> exact snprintfMsgBuffer_length_le _)
  all_goals simp_all

/-- Witness for the truncation theorem: a concrete failing load whose
diagnostic fits the buffer untouched. -/
theorem init_diagnostics_truncated_to_511_witness :
    ((some "x" : Option String) = some "x") ∧
    mkLibraryLoader (some "x") (fun _ => none) "boom" =
      Except.error "Failed to load library: x (boom)" ∧
    ("Failed to load library: x (boom)" : String).length ≤ 511 :=
  ⟨rfl, rfl,
    init_diagnostics_truncated_to_511 (some "x") "x" (fun _ => none)
      "boom" "Failed to load library: x (boom)" rfl rfl⟩

/-- C5: symbol resolution is all-or-nothing — when a loaded library
lacks a required entry point, construction fails with a diagnostic
naming the missing entry point (and embedding the loader diagnostic
whenever it fits the `MsgBuffer`), the loader singleton stays null and
no facade, bound or otherwise, is exposed. -/
theorem symbol_resolution_all_or_nothing
    (path : String) (lib : NativeLib) (libs : String → Option NativeLib)
    (dlerr : String) (hlib : libs path = some lib)
    (hmiss : lib.symbols "PrivatemodeStartProxy" = none ∨
      lib.symbols "CurrentManifest" = none) :
    (∃ missing e, lib.symbols missing = none ∧
      (missing = "PrivatemodeStartProxy" ∨ missing = "CurrentManifest") ∧
      mkLibraryLoader (some path) libs dlerr = Except.error e ∧
      occursIn missing e ∧
      (dlerr.length ≤ 463 → occursIn dlerr e)) ∧
    (Init (some path) libs dlerr).loader = none ∧
    (Init (some path) libs dlerr).exports =
      { startProxySet := false, getCurrentManifestSet := false } := by
  cases hsp : lib.symbols "PrivatemodeStartProxy" with
  | none =>
    have hmk : mkLibraryLoader (some path) libs dlerr =
        Except.error (snprintfMsgBuffer
          ("Failed to find PrivatemodeStartProxy function (" ++ dlerr ++ ")")) := by
      simp [mkLibraryLoader, getLibraryPath, hlib, hsp]
    refine ⟨⟨"PrivatemodeStartProxy", _, hsp, Or.inl rfl, hmk, ?_, ?_⟩,
      by simp [Init, hmk], by simp [Init, hmk]⟩
    · apply occursIn_snprintfMsgBuffer _ _ ("Failed to find ".data)
        (" function (".data ++ dlerr.data ++ ")".data)
      · show (("Failed to find PrivatemodeStartProxy function (" ++ dlerr) ++ ")").data = _
        rw [String.data_append, String.data_append,
          (by decide :
            ("Failed to find PrivatemodeStartProxy function (" : String).data =
              "Failed to find ".data ++
                ("PrivatemodeStartProxy" : String).data ++ " function (".data)]
        simp [List.append_assoc]
      · decide
    · intro hd
      apply occursIn_snprintfMsgBuffer _ _
        ("Failed to find PrivatemodeStartProxy function (".data) (")".data)
      · rw [String.data_append, String.data_append]
      · have h47 :
            ("Failed to find PrivatemodeStartProxy function (" : String).data.length
              = 47 := by decide
        have hd' : dlerr.data.length ≤ 463 := hd
        omega
  | some sp =>
    have hcm : lib.symbols "CurrentManifest" = none := by
      cases hmiss with
      | inl h => rw [h] at hsp; cases hsp
      | inr h => exact h
    have hmk : mkLibraryLoader (some path) libs dlerr =
        Except.error (snprintfMsgBuffer
          ("Failed to find CurrentManifest function (" ++ dlerr ++ ")")) := by
      simp [mkLibraryLoader, getLibraryPath, hlib, hsp, hcm]
    refine ⟨⟨"CurrentManifest", _, hcm, Or.inr rfl, hmk, ?_, ?_⟩,
      by simp [Init, hmk], by simp [Init, hmk]⟩
    · apply occursIn_snprintfMsgBuffer _ _ ("Failed to find ".data)
        (" function (".data ++ dlerr.data ++ ")".data)
      · show (("Failed to find CurrentManifest function (" ++ dlerr) ++ ")").data = _
        rw [String.data_append, String.data_append,
          (by decide :
            ("Failed to find CurrentManifest function (" : String).data =
              "Failed to find ".data ++
                ("CurrentManifest" : String).data ++ " function (".data)]
        simp [List.append_assoc]
      · decide
    · intro hd
      apply occursIn_snprintfMsgBuffer _ _
        ("Failed to find CurrentManifest function (".data) (")".data)
      · rw [String.data_append, String.data_append]
      · have h41 :
            ("Failed to find CurrentManifest function (" : String).data.length
              = 41 := by decide
        have hd' : dlerr.data.length ≤ 463 := hd
        omega

/-- Witness for the all-or-nothing theorem at a concrete library with
no symbols at all. -/
theorem symbol_resolution_all_or_nothing_witness :
    ((fun p => if p = "a" then some (NativeLib.mk (fun _ => none)) else none)
        "a" = some (NativeLib.mk (fun _ => none))) ∧
    ((NativeLib.mk (fun _ => none) : NativeLib).symbols
        "PrivatemodeStartProxy" = none ∨
      (NativeLib.mk (fun _ => none) : NativeLib).symbols
        "CurrentManifest" = none) ∧
    ((∃ missing e, (NativeLib.mk (fun _ => none) : NativeLib).symbols missing = none ∧
      (missing = "PrivatemodeStartProxy" ∨ missing = "CurrentManifest") ∧
      mkLibraryLoader (some "a")
        (fun p => if p = "a" then some (NativeLib.mk (fun _ => none)) else none)
        "sym" = Except.error e ∧
      occursIn missing e ∧
      (("sym" : String).length ≤ 463 → occursIn "sym" e)) ∧
    (Init (some "a")
      (fun p => if p = "a" then some (NativeLib.mk (fun _ => none)) else none)
      "sym").loader = none ∧
    (Init (some "a")
      (fun p => if p = "a" then some (NativeLib.mk (fun _ => none)) else none)
      "sym").exports =
      { startProxySet := false, getCurrentManifestSet := false }) :=
  ⟨rfl, Or.inl rfl,
    symbol_resolution_all_or_nothing "a" (NativeLib.mk (fun _ => none))
      (fun p => if p = "a" then some (NativeLib.mk (fun _ => none)) else none)
      "sym" rfl (Or.inl rfl)⟩
